import Mathlib

/-!
Verification development for the ROP & EOQ calculator (`src/main.py`).

The core of the program is three pandas-based functions:

* `calculate_metrics(df)` (lines 27-32): assigns the four derived columns
  `ROP`, `Annual_Demand`, `EOQ`, `Total_Cost` on the dataframe `df` and
  returns `df` itself.
* `apply_scenario(df, scenario)` (lines 40-49): copies `df`, perturbs base
  columns according to the scenario tag, and calls `calculate_metrics` on
  the copy.
* `class_summary` (line 85): `df.groupby("Class")[["ROP","EOQ","Total_Cost"]].sum().reset_index()`.

We embed a dataframe as a `List Record` (ordered rows; a derived column that
has not been assigned is `none` on every row).  Numeric cells are IEEE-754
double values; we model them exactly with `FVal`: either a finite value,
carried as a real number (so arithmetic on finite values is exact rather
than rounded), or one of the special values `inf`, `-inf`, `nan`, with the
IEEE rules for how the operations used by the program (`+`, `*`, `/`,
`np.sqrt`) create and propagate special values.
-/

/-- Model of an IEEE double cell: a finite value (carried exactly as a real
number), `+inf`, `-inf` or `nan`. -/
inductive FVal where
  | fin (x : ℝ)
  | inf
  | ninf
  | nan

namespace FVal

/-- IEEE addition on the model (finite arithmetic exact; `nan` absorbs;
`inf + -inf = nan`). -/
noncomputable def add : FVal → FVal → FVal
  | nan, _ => nan
  | _, nan => nan
  | fin x, fin y => fin (x + y)
  | inf, ninf => nan
  | ninf, inf => nan
  | inf, _ => inf
  | _, inf => inf
  | ninf, _ => ninf
  | _, ninf => ninf

open Classical in
/-- IEEE multiplication on the model (`inf * 0 = nan`, signs as usual,
`nan` absorbs). -/
noncomputable def mul : FVal → FVal → FVal
  | nan, _ => nan
  | _, nan => nan
  | fin x, fin y => fin (x * y)
  | fin x, inf => if 0 < x then inf else if x < 0 then ninf else nan
  | inf, fin y => if 0 < y then inf else if y < 0 then ninf else nan
  | fin x, ninf => if 0 < x then ninf else if x < 0 then inf else nan
  | ninf, fin y => if 0 < y then ninf else if y < 0 then inf else nan
  | inf, inf => inf
  | inf, ninf => ninf
  | ninf, inf => ninf
  | ninf, ninf => inf

open Classical in
/-- IEEE division on the model: finite division exact when the divisor is
nonzero; `x / 0` is `±inf` by the sign of `x` and `0 / 0 = nan` (the finite
zero stands for IEEE `+0`); a finite value over an infinity is `0`;
`inf / inf = nan`; `nan` absorbs. -/
noncomputable def div : FVal → FVal → FVal
  | nan, _ => nan
  | _, nan => nan
  | fin x, fin y =>
      if y = 0 then (if 0 < x then inf else if x < 0 then ninf else nan)
      else fin (x / y)
  | fin _, inf => fin 0
  | fin _, ninf => fin 0
  | inf, fin y => if y < 0 then ninf else inf
  | ninf, fin y => if y < 0 then inf else ninf
  | inf, inf => nan
  | inf, ninf => nan
  | ninf, inf => nan
  | ninf, ninf => nan

open Classical in
/-- IEEE square root on the model (`np.sqrt`): `nan` on negative input
(numpy emits a warning and yields `nan`), `inf` on `inf`. -/
noncomputable def sqrt : FVal → FVal
  | nan => nan
  | ninf => nan
  | inf => inf
  | fin x => if x < 0 then nan else fin (Real.sqrt x)

/-- A value is finite when it is a `fin`. -/
def isFinite : FVal → Bool
  | fin _ => true
  | _ => false

/-- `nan` test. -/
def isNan : FVal → Bool
  | nan => true
  | _ => false

noncomputable instance : Add FVal := ⟨add⟩
noncomputable instance : Mul FVal := ⟨mul⟩
noncomputable instance : Div FVal := ⟨div⟩

end FVal

/-- One row of the dataframe.  The first seven fields are the base columns
of the Record Store (`st.session_state.data`); the last four are the derived
columns, `none` while the column has not been assigned by
`calculate_metrics`. -/
structure Record where
  sku : String
  cls : String
  avg_daily_demand : FVal
  lead_time_days : FVal
  safety_stock : FVal
  order_cost : FVal
  holding_cost : FVal
  rop : Option FVal := none
  annual_demand : Option FVal := none
  eoq : Option FVal := none
  total_cost : Option FVal := none

/-- The base (user-entered) part of a row, used to state that a call leaves
the base columns untouched. -/
def Record.base (r : Record) : String × String × FVal × FVal × FVal × FVal × FVal :=
  (r.sku, r.cls, r.avg_daily_demand, r.lead_time_days, r.safety_stock,
   r.order_cost, r.holding_cost)

/-- The effect of `calculate_metrics` (lines 28-31) on one row.  The pandas
column assignments are elementwise, so the four successive column
assignments act on each row independently; within a row, the `EOQ` line
reads the `Annual_Demand` cell assigned on the previous line (the local
`annual`), and the `Total_Cost` line reads the freshly assigned `EOQ` and
`Annual_Demand` cells. -/
noncomputable def rowMetrics (r : Record) : Record :=
  let rop := r.avg_daily_demand * r.lead_time_days + r.safety_stock
  let annual := r.avg_daily_demand * FVal.fin 365
  let eoq := FVal.sqrt (FVal.fin 2 * annual * r.order_cost / r.holding_cost)
  let total := eoq / FVal.fin 2 * r.holding_cost + annual / eoq * r.order_cost
  { r with rop := some rop, annual_demand := some annual,
           eoq := some eoq, total_cost := some total }

/-- `calculate_metrics(df)` (lines 27-32): value returned by the call. -/
noncomputable def calculate_metrics (df : List Record) : List Record :=
  df.map rowMetrics

/-- Call-effect model of `calculate_metrics(df)`: the pair (returned
dataframe, state of the caller's dataframe object after the call).  The
function assigns its four columns directly on the argument (`df["ROP"] = …`)
and returns that same object, so after the call the caller's object holds
the augmented table. -/
noncomputable def calculate_metrics_call (df : List Record) :
    List Record × List Record :=
  (calculate_metrics df, calculate_metrics df)

/-- The `High Demand (+20%)` column assignment (line 43 / 47):
`df["Average_Daily_Demand"] = df["Average_Daily_Demand"] * 1.2`,
elementwise on each row. -/
noncomputable def bumpDemand (r : Record) : Record :=
  { r with avg_daily_demand := r.avg_daily_demand * FVal.fin 1.2 }

/-- The `Supply Delay (+3 days)` column assignment (line 45 / 48):
`df["Lead_Time_Days"] = df["Lead_Time_Days"] + 3`, elementwise on each
row. -/
noncomputable def bumpLead (r : Record) : Record :=
  { r with lead_time_days := r.lead_time_days + FVal.fin 3 }

/-- `apply_scenario(df, scenario)` (lines 40-49): value returned by the
call.  The function first rebinds `df` to `df.copy()`, perturbs the copy
according to the scenario string (any unmatched string falls through with
no perturbation), and returns `calculate_metrics` of the perturbed copy. -/
noncomputable def apply_scenario (df : List Record) (scenario : String) :
    List Record :=
  let df :=
    if scenario = "High Demand (+20%)" then
      df.map bumpDemand
    else if scenario = "Supply Delay (+3 days)" then
      df.map bumpLead
    else if scenario = "High Demand + Supply Delay" then
      (df.map bumpDemand).map bumpLead
    else df
  calculate_metrics df

/-- Call-effect model of `apply_scenario(df, scenario)`: the pair (returned
dataframe, state of the caller's dataframe object after the call).  Line 41
rebinds the local `df` to `df.copy()`, so every later column assignment —
including those done by `calculate_metrics` — hits the copy, and the
caller's object keeps the state it had on entry. -/
noncomputable def apply_scenario_call (df : List Record) (scenario : String) :
    List Record × List Record :=
  (apply_scenario df scenario, df)

/-- Insert a key into a sorted key list (ascending string order). -/
def insortKey (c : String) : List String → List String
  | [] => [c]
  | k :: ks => if c ≤ k then c :: k :: ks else k :: insortKey c ks

/-- Sort a key list ascending (insertion sort). -/
def sortKeys (l : List String) : List String := l.foldr insortKey []

/-- The grouping keys of `df.groupby("Class")`: the distinct `Class` values,
in ascending order (pandas `groupby` sorts the group keys by default). -/
def classKeys (df : List Record) : List String :=
  sortKeys (df.map Record.cls).dedup

/-- A pandas column sum with the default `skipna=True`: `nan` cells are
skipped, finite cells add exactly, infinities propagate. -/
noncomputable def sumF (l : List FVal) : FVal :=
  (l.filter (fun v => !v.isNan)).foldl FVal.add (FVal.fin 0)

/-- `class_summary` (line 85):
`df.groupby("Class")[["ROP","EOQ","Total_Cost"]].sum().reset_index()` —
one row per distinct `Class` value, holding that class's column sums of
`ROP`, `EOQ` and `Total_Cost`.  Reading a derived cell that was never
assigned is modelled as `nan` (the function is only ever called on
`calculate_metrics` output, where all four derived columns are present). -/
noncomputable def class_summary (df : List Record) :
    List (String × FVal × FVal × FVal) :=
  (classKeys df).map fun c =>
    let g := df.filter (fun r => r.cls = c)
    (c, sumF (g.map fun r => r.rop.getD FVal.nan),
        sumF (g.map fun r => r.eoq.getD FVal.nan),
        sumF (g.map fun r => r.total_cost.getD FVal.nan))

/-- The first row of the initial dataset (lines 14-22), also the record of
the spec's concrete scenario. -/
def recA101 : Record :=
  { sku := "A 101", cls := "A", avg_daily_demand := FVal.fin 50,
    lead_time_days := FVal.fin 10, safety_stock := FVal.fin 100,
    order_cost := FVal.fin 200, holding_cost := FVal.fin 2 }

/-- The second row of the initial dataset (lines 14-22). -/
def recB101 : Record :=
  { sku := "B 101", cls := "B", avg_daily_demand := FVal.fin 30,
    lead_time_days := FVal.fin 5, safety_stock := FVal.fin 50,
    order_cost := FVal.fin 150, holding_cost := FVal.fin 1.5 }

/-- A record with `Holding_Cost = 0` (division by zero in the `EOQ` line). -/
def recZeroHolding : Record :=
  { sku := "C 101", cls := "C", avg_daily_demand := FVal.fin 50,
    lead_time_days := FVal.fin 10, safety_stock := FVal.fin 100,
    order_cost := FVal.fin 200, holding_cost := FVal.fin 0 }

/-- A record with `Average_Daily_Demand = 0`: the `EOQ` radicand is `0`, so
the `Total_Cost` line divides `0` by `0`. -/
def recZeroDemand : Record :=
  { sku := "D 101", cls := "D", avg_daily_demand := FVal.fin 0,
    lead_time_days := FVal.fin 10, safety_stock := FVal.fin 100,
    order_cost := FVal.fin 200, holding_cost := FVal.fin 2 }

/-- An already-augmented class-A row, used to exercise the aggregator. -/
def aggA : Record :=
  { sku := "A 101", cls := "A", avg_daily_demand := FVal.fin 50,
    lead_time_days := FVal.fin 10, safety_stock := FVal.fin 100,
    order_cost := FVal.fin 200, holding_cost := FVal.fin 2,
    rop := some (FVal.fin 600), annual_demand := some (FVal.fin 18250),
    eoq := some (FVal.fin 1910), total_cost := some (FVal.fin 3820) }

/-- An already-augmented class-B row, used to exercise the aggregator. -/
def aggB : Record :=
  { sku := "B 101", cls := "B", avg_daily_demand := FVal.fin 30,
    lead_time_days := FVal.fin 5, safety_stock := FVal.fin 50,
    order_cost := FVal.fin 150, holding_cost := FVal.fin 1.5,
    rop := some (FVal.fin 200), annual_demand := some (FVal.fin 10950),
    eoq := some (FVal.fin 100), total_cost := some (FVal.fin 300) }

namespace FVal

@[simp] theorem fin_add_fin (x y : ℝ) : fin x + fin y = fin (x + y) := rfl

@[simp] theorem nan_add (v : FVal) : nan + v = nan := by cases v <;> rfl

@[simp] theorem add_nan (v : FVal) : v + nan = nan := by cases v <;> rfl

@[simp] theorem inf_add_fin (y : ℝ) : inf + fin y = inf := rfl

@[simp] theorem fin_add_inf (x : ℝ) : fin x + inf = inf := rfl

@[simp] theorem inf_add_inf : inf + inf = inf := rfl

@[simp] theorem inf_add_ninf : inf + ninf = nan := rfl

@[simp] theorem ninf_add_inf : ninf + inf = nan := rfl

@[simp] theorem ninf_add_fin (y : ℝ) : ninf + fin y = ninf := rfl

@[simp] theorem fin_add_ninf (x : ℝ) : fin x + ninf = ninf := rfl

@[simp] theorem ninf_add_ninf : ninf + ninf = ninf := rfl

@[simp] theorem fin_mul_fin (x y : ℝ) : fin x * fin y = fin (x * y) := rfl

@[simp] theorem nan_mul (v : FVal) : nan * v = nan := by cases v <;> rfl

@[simp] theorem mul_nan (v : FVal) : v * nan = nan := by cases v <;> rfl

@[simp] theorem fin_mul_inf (x : ℝ) :
    fin x * inf = if 0 < x then inf else if x < 0 then ninf else nan := rfl

@[simp] theorem inf_mul_fin (y : ℝ) :
    inf * fin y = if 0 < y then inf else if y < 0 then ninf else nan := rfl

@[simp] theorem fin_mul_ninf (x : ℝ) :
    fin x * ninf = if 0 < x then ninf else if x < 0 then inf else nan := rfl

@[simp] theorem ninf_mul_fin (y : ℝ) :
    ninf * fin y = if 0 < y then ninf else if y < 0 then inf else nan := rfl

@[simp] theorem inf_mul_inf : inf * inf = inf := rfl

@[simp] theorem inf_mul_ninf : inf * ninf = ninf := rfl

@[simp] theorem ninf_mul_inf : ninf * inf = ninf := rfl

@[simp] theorem ninf_mul_ninf : ninf * ninf = inf := rfl

@[simp] theorem fin_div_fin (x y : ℝ) :
    fin x / fin y =
      if y = 0 then (if 0 < x then inf else if x < 0 then ninf else nan)
      else fin (x / y) := rfl

@[simp] theorem nan_div (v : FVal) : nan / v = nan := by cases v <;> rfl

@[simp] theorem div_nan (v : FVal) : v / nan = nan := by cases v <;> rfl

@[simp] theorem fin_div_inf (x : ℝ) : fin x / inf = fin 0 := rfl

@[simp] theorem fin_div_ninf (x : ℝ) : fin x / ninf = fin 0 := rfl

@[simp] theorem inf_div_fin (y : ℝ) :
    inf / fin y = if y < 0 then ninf else inf := rfl

@[simp] theorem ninf_div_fin (y : ℝ) :
    ninf / fin y = if y < 0 then inf else ninf := rfl

@[simp] theorem inf_div_inf : inf / inf = nan := rfl

@[simp] theorem inf_div_ninf : inf / ninf = nan := rfl

@[simp] theorem ninf_div_inf : ninf / inf = nan := rfl

@[simp] theorem ninf_div_ninf : ninf / ninf = nan := rfl

@[simp] theorem sqrt_fin (x : ℝ) :
    sqrt (fin x) = if x < 0 then nan else fin (Real.sqrt x) := rfl

@[simp] theorem sqrt_inf : sqrt inf = inf := rfl

@[simp] theorem sqrt_ninf : sqrt ninf = nan := rfl

@[simp] theorem sqrt_nan : sqrt nan = nan := rfl

@[simp] theorem isFinite_fin (x : ℝ) : (fin x).isFinite = true := rfl

@[simp] theorem isFinite_inf : inf.isFinite = false := rfl

@[simp] theorem isFinite_ninf : ninf.isFinite = false := rfl

@[simp] theorem isFinite_nan : nan.isFinite = false := rfl

@[simp] theorem isNan_fin (x : ℝ) : (fin x).isNan = false := rfl

@[simp] theorem isNan_inf : inf.isNan = false := rfl

@[simp] theorem isNan_ninf : ninf.isNan = false := rfl

@[simp] theorem isNan_nan : nan.isNan = true := rfl

end FVal

/-- C1: `calculate_metrics` keeps length and order, each output row is a
function of the matching input row alone (no cross-record coupling), and on
each row the derived cells are `rop = avg_daily_demand*lead_time_days +
safety_stock`, `annual_demand = avg_daily_demand*365`,
`eoq = sqrt(2*annual_demand*order_cost/holding_cost)` and
`total_cost = eoq/2*holding_cost + annual_demand/eoq*order_cost`. -/
theorem C1_calculate_metrics_rowwise (df : List Record) :
    (calculate_metrics df).length = df.length ∧
    (∀ i : ℕ, (calculate_metrics df)[i]? = (df[i]?).map rowMetrics) ∧
    (∀ r : Record,
      (rowMetrics r).base = r.base ∧
      (rowMetrics r).rop =
        some (r.avg_daily_demand * r.lead_time_days + r.safety_stock) ∧
      (rowMetrics r).annual_demand =
        some (r.avg_daily_demand * FVal.fin 365) ∧
      (∀ a, (rowMetrics r).annual_demand = some a →
        (rowMetrics r).eoq =
          some (FVal.sqrt (FVal.fin 2 * a * r.order_cost / r.holding_cost))) ∧
      (∀ a e, (rowMetrics r).annual_demand = some a →
        (rowMetrics r).eoq = some e →
        (rowMetrics r).total_cost =
          some (e / FVal.fin 2 * r.holding_cost + a / e * r.order_cost))) := by
  refine ⟨by simp [calculate_metrics], ?_, ?_⟩
  · intro i
    simp [calculate_metrics]
  · intro r
    refine ⟨rfl, rfl, rfl, ?_, ?_⟩
    · intro a ha
      cases ha
      rfl
    · intro a e ha he
      cases ha
      cases he
      rfl

/-- C2: the scenario tags `High Demand (+20%)`, `Supply Delay (+3 days)`
and `High Demand + Supply Delay` respectively scale each row's
`Average_Daily_Demand` by 1.2, add 3 to each row's `Lead_Time_Days`, and
apply both perturbations, before computing metrics; and the two
perturbations commute (they touch disjoint columns). -/
theorem C2_scenario_perturbations (df : List Record) :
    apply_scenario df "High Demand (+20%)" =
      calculate_metrics (df.map bumpDemand) ∧
    apply_scenario df "Supply Delay (+3 days)" =
      calculate_metrics (df.map bumpLead) ∧
    apply_scenario df "High Demand + Supply Delay" =
      calculate_metrics ((df.map bumpDemand).map bumpLead) ∧
    (df.map bumpDemand).map bumpLead = (df.map bumpLead).map bumpDemand := by
  refine ⟨?_, ?_, ?_, ?_⟩
  · simp [apply_scenario]
  · simp [apply_scenario]
  · simp [apply_scenario]
  · simp only [List.map_map]
    rfl

/-- C3: `apply_scenario` never mutates the caller's collection: the
caller's dataframe object is unchanged after the call (in particular every
base field is), so a second scenario run on the same stored collection is
computed from the original base fields. -/
theorem C3_apply_scenario_no_mutation (df : List Record) (tag1 tag2 : String) :
    (apply_scenario_call df tag1).2 = df ∧
    ((apply_scenario_call df tag1).2).map Record.base = df.map Record.base ∧
    (apply_scenario_call ((apply_scenario_call df tag1).2) tag2).1 =
      apply_scenario df tag2 :=
  ⟨rfl, rfl, rfl⟩

/-- C7: the `Base Case` tag matches no perturbation branch, so
`apply_scenario` passes the collection through unchanged and returns exactly
`calculate_metrics` of it. -/
theorem C7_base_case_is_calculate_metrics (df : List Record) :
    apply_scenario df "Base Case" = calculate_metrics df := by
  simp [apply_scenario]

/-- C8: any tag outside the four enumerated scenario names falls through
the `if`/`elif` chain with no perturbation and yields the same result as
`Base Case` (no invalid-scenario error is raised). -/
theorem C8_unknown_tag_is_base_case (df : List Record) (tag : String)
    (_h1 : tag ≠ "Base Case") (h2 : tag ≠ "High Demand (+20%)")
    (h3 : tag ≠ "Supply Delay (+3 days)")
    (h4 : tag ≠ "High Demand + Supply Delay") :
    apply_scenario df tag = apply_scenario df "Base Case" ∧
    apply_scenario df tag = calculate_metrics df := by
  constructor
  · simp [apply_scenario, h2, h3, h4]
  · simp [apply_scenario, h2, h3, h4]

/-- Witness for C8 at the tag `"Bogus"` on the initial dataset. -/
theorem C8_unknown_tag_is_base_case_witness :
    apply_scenario [recA101, recB101] "Bogus" =
      apply_scenario [recA101, recB101] "Base Case" ∧
    apply_scenario [recA101, recB101] "Bogus" =
      calculate_metrics [recA101, recB101] :=
  C8_unknown_tag_is_base_case [recA101, recB101] "Bogus"
    (by decide) (by decide) (by decide) (by decide)

/-- C4 counterexample: `calculate_metrics` does not leave the collection
passed in unchanged — on the initial first row the call attaches the
derived columns to the caller's object (its `ROP` cell goes from unassigned
to assigned). -/
theorem C4_counterexample_in_place_columns :
    (calculate_metrics_call [recA101]).2 ≠ [recA101] := by
  intro h
  have h2 := congrArg (fun l => l.map Record.rop) h
  simp [calculate_metrics_call, calculate_metrics, rowMetrics, recA101] at h2

/-- C4 amended: `calculate_metrics` augments the collection passed in, in
place — the returned collection is the argument's post-call state — but the
base fields of the passed collection are unchanged, and the shared record
store is still never mutated because every call site hands the function a
copy (`apply_scenario` copies internally; the download flow copies
explicitly). -/
theorem C4_calculate_metrics_effect (df : List Record) :
    (calculate_metrics_call df).2 = (calculate_metrics_call df).1 ∧
    (calculate_metrics_call df).1 = calculate_metrics df ∧
    ((calculate_metrics_call df).2).map Record.base = df.map Record.base ∧
    (∀ tag, (apply_scenario_call df tag).2 = df) := by
  refine ⟨rfl, rfl, ?_, fun _ => rfl⟩
  show (df.map rowMetrics).map Record.base = df.map Record.base
  rw [List.map_map]
  rfl

/-- C5: on a row whose `Holding_Cost` is zero (division by zero in the
`EOQ` line) or whose `EOQ` radicand is negative, `calculate_metrics`
produces a non-finite `EOQ` and a `nan` `Total_Cost` on that row —
propagated, not clamped — and, the computation being rowwise, every other
row is still processed and receives its usual derived values. -/
theorem C5_nonfinite_propagated_per_row (df : List Record) (i : ℕ)
    (r : Record) (hr : df[i]? = some r) (a c h : ℝ)
    (ha : r.avg_daily_demand = FVal.fin a)
    (hc : r.order_cost = FVal.fin c)
    (hh : r.holding_cost = FVal.fin h)
    (hbad : h = 0 ∨ 2 * (a * 365) * c / h < 0) :
    ((rowMetrics r).eoq.getD (FVal.fin 0)).isFinite = false ∧
    (rowMetrics r).eoq.isSome = true ∧
    (rowMetrics r).total_cost = some FVal.nan ∧
    (calculate_metrics df)[i]? = some (rowMetrics r) ∧
    (∀ j : ℕ, (calculate_metrics df)[j]? = (df[j]?).map rowMetrics) := by
  have hrows : ∀ j : ℕ, (calculate_metrics df)[j]? = (df[j]?).map rowMetrics := by
    intro j
    simp [calculate_metrics]
  have hi : (calculate_metrics df)[i]? = some (rowMetrics r) := by
    rw [hrows i, hr]
    rfl
  refine ⟨?_, ?_, ?_, hi, hrows⟩ <;>
  · rcases hbad with hz | hneg
    · subst hz
      rcases lt_trichotomy (2 * (a * 365) * c) 0 with hn | hn | hn
      · simp [rowMetrics, ha, hc, hh, hn, hn.not_lt]
      · simp [rowMetrics, ha, hc, hh, hn]
      · simp [rowMetrics, ha, hc, hh, hn, hn.asymm,
          show ¬(2:ℝ) < 0 by norm_num]
    · have hz : h ≠ 0 := by
        intro h0
        rw [h0, div_zero] at hneg
        exact absurd hneg (lt_irrefl 0)
      simp [rowMetrics, ha, hc, hh, hz, hneg]

/-- Witness for C5: the zero-`Holding_Cost` row gets a non-finite `EOQ` and
a `nan` `Total_Cost`, while the valid second row is still processed. -/
theorem C5_nonfinite_propagated_per_row_witness :
    ((rowMetrics recZeroHolding).eoq.getD (FVal.fin 0)).isFinite = false ∧
    (rowMetrics recZeroHolding).total_cost = some FVal.nan ∧
    (calculate_metrics [recZeroHolding, recB101])[1]? =
      some (rowMetrics recB101) := by
  have H := C5_nonfinite_propagated_per_row [recZeroHolding, recB101] 0
    recZeroHolding rfl 50 200 0 rfl rfl rfl (Or.inl rfl)
  exact ⟨H.1, H.2.2.1, by rw [H.2.2.2.2 1]; rfl⟩

/-- Helper: on a row whose demand, order cost and holding cost are the
finite values `a`, `c`, `h` with `h > 0` and a strictly positive radicand,
the derived cells of `calculate_metrics` are the finite values given by the
formulas (all arithmetic stays in the finite fragment). -/
theorem rowMetrics_eoq_total_fin (r : Record) (a c h : ℝ)
    (ha : r.avg_daily_demand = FVal.fin a)
    (hc : r.order_cost = FVal.fin c)
    (hh : r.holding_cost = FVal.fin h)
    (hpos : 0 < h) (hrad : 0 < a * 365 * c) :
    (rowMetrics r).annual_demand = some (FVal.fin (a * 365)) ∧
    (rowMetrics r).eoq =
      some (FVal.fin (Real.sqrt (2 * (a * 365) * c / h))) ∧
    (rowMetrics r).total_cost =
      some (FVal.fin (Real.sqrt (2 * (a * 365) * c / h) / 2 * h +
        a * 365 / Real.sqrt (2 * (a * 365) * c / h) * c)) := by
  have hradpos : 0 < 2 * (a * 365) * c / h := by
    apply div_pos _ hpos
    nlinarith
  have hsq : 0 < Real.sqrt (2 * (a * 365) * c / h) := Real.sqrt_pos.mpr hradpos
  simp [rowMetrics, ha, hc, hh, hpos.ne', hradpos.asymm, hsq.ne',
    show (2:ℝ) ≠ 0 by norm_num]

/-- C9 counterexample: on the spec's concrete record the code computes
`EOQ = sqrt(3650000)`, which exceeds `1910.49`, so the claimed value
`≈ 1910.24` is wrong (it is not within rounding distance of the computed
one; the true value rounds to `1910.50`). -/
theorem C9_counterexample_eoq_value :
    (rowMetrics recA101).eoq = some (FVal.fin (Real.sqrt 3650000)) ∧
    1910.49 < Real.sqrt 3650000 ∧
    ¬ |Real.sqrt 3650000 - 1910.24| < 0.005 := by
  have hlt : (1910.49:ℝ) < Real.sqrt 3650000 :=
    (Real.lt_sqrt (by norm_num)).mpr (by norm_num)
  have heoq := (rowMetrics_eoq_total_fin recA101 50 200 2 rfl rfl rfl
    (by norm_num) (by norm_num)).2.1
  refine ⟨?_, hlt, ?_⟩
  · rw [heoq]
    norm_num
  · intro habs
    have := abs_lt.mp habs
    linarith [this.2]

/-- C9 amended: on the record `{Average_Daily_Demand 50, Lead_Time_Days 10,
Safety_Stock 100, Order_Cost 200, Holding_Cost 2}` the code computes
`ROP = 600`, `Annual_Demand = 18250`, `EOQ = sqrt(3650000) ≈ 1910.50`, and
`Total_Cost = 2*sqrt(3650000) ≈ 3820.99`; the `High Demand (+20%)` scenario
turns the record's `Average_Daily_Demand` into `60` and its `ROP` into
`700`, while the original collection still carries demand `50`. -/
theorem C9_concrete_scenario :
    (rowMetrics recA101).rop = some (FVal.fin 600) ∧
    (rowMetrics recA101).annual_demand = some (FVal.fin 18250) ∧
    (rowMetrics recA101).eoq = some (FVal.fin (Real.sqrt 3650000)) ∧
    1910.49 < Real.sqrt 3650000 ∧ Real.sqrt 3650000 < 1910.50 ∧
    (rowMetrics recA101).total_cost =
      some (FVal.fin (2 * Real.sqrt 3650000)) ∧
    3820.98 < 2 * Real.sqrt 3650000 ∧ 2 * Real.sqrt 3650000 < 3821 ∧
    calculate_metrics [recA101] = [rowMetrics recA101] ∧
    (apply_scenario_call [recA101] "High Demand (+20%)").1 =
      [rowMetrics (bumpDemand recA101)] ∧
    (bumpDemand recA101).avg_daily_demand = FVal.fin 60 ∧
    (rowMetrics (bumpDemand recA101)).rop = some (FVal.fin 700) ∧
    (apply_scenario_call [recA101] "High Demand (+20%)").2 = [recA101] ∧
    recA101.avg_daily_demand = FVal.fin 50 := by
  have H := rowMetrics_eoq_total_fin recA101 50 200 2 rfl rfl rfl
    (by norm_num) (by norm_num)
  have hlt : (1910.49:ℝ) < Real.sqrt 3650000 :=
    (Real.lt_sqrt (by norm_num)).mpr (by norm_num)
  have hgt : Real.sqrt 3650000 < 1910.50 :=
    (Real.sqrt_lt' (by norm_num)).mpr (by norm_num)
  have hradpos : (0:ℝ) < 3650000 := by norm_num
  have hepos : 0 < Real.sqrt 3650000 := Real.sqrt_pos.mpr hradpos
  have hsq : Real.sqrt 3650000 ^ 2 = 3650000 := Real.sq_sqrt hradpos.le
  have harg : 2 * ((50:ℝ) * 365) * 200 / 2 = 3650000 := by norm_num
  refine ⟨?_, ?_, ?_, hlt, hgt, ?_, ?_, ?_, rfl, ?_, ?_, ?_, rfl, rfl⟩
  · norm_num [rowMetrics, recA101]
  · rw [H.1]
    norm_num
  · rw [H.2.1, harg]
  · rw [H.2.2, harg]
    have hterm : (50:ℝ) * 365 / Real.sqrt 3650000 * 200 = Real.sqrt 3650000 := by
      rw [div_mul_eq_mul_div, div_eq_iff hepos.ne']
      nlinarith [hsq]
    rw [hterm]
    norm_num
    ring
  · nlinarith [hlt]
  · nlinarith [hgt]
  · simp [apply_scenario_call, apply_scenario, calculate_metrics]
  · norm_num [bumpDemand, recA101]
  · norm_num [rowMetrics, bumpDemand, recA101]

/-- C10 counterexample: take a record with `Holding_Cost = 2 > 0` and
`Average_Daily_Demand = 0`, so the radicand is `0` (non-negative, as the
claim allows).  Then `EOQ = 0` and the `Total_Cost` line divides the annual
demand `0` by `EOQ = 0`, giving `nan`, which differs from
`eoq * holding_cost = 0`. -/
theorem C10_counterexample_zero_radicand :
    recZeroDemand.holding_cost = FVal.fin 2 ∧
    recZeroDemand.avg_daily_demand = FVal.fin 0 ∧
    (rowMetrics recZeroDemand).eoq = some (FVal.fin 0) ∧
    (rowMetrics recZeroDemand).total_cost = some FVal.nan ∧
    some FVal.nan ≠ some (FVal.fin 0 * recZeroDemand.holding_cost) := by
  refine ⟨rfl, rfl, ?_, ?_, ?_⟩
  · norm_num [rowMetrics, recZeroDemand]
  · norm_num [rowMetrics, recZeroDemand]
  · intro hcon
    rw [Option.some_inj] at hcon
    exact FVal.noConfusion hcon

/-- C10 amended: for a record with finite base fields, `holding_cost > 0`
and a strictly positive radicand (`annual_demand * order_cost > 0`; at a
zero radicand the `Total_Cost` line divides by `eoq = 0` and yields `nan`),
the exact values satisfy `total_cost = eoq * holding_cost`, the holding and
ordering terms being equal halves. -/
theorem C10_total_cost_split (r : Record) (a c h : ℝ)
    (ha : r.avg_daily_demand = FVal.fin a)
    (hc : r.order_cost = FVal.fin c)
    (hh : r.holding_cost = FVal.fin h)
    (hpos : 0 < h) (hrad : 0 < a * 365 * c) :
    (rowMetrics r).eoq =
      some (FVal.fin (Real.sqrt (2 * (a * 365) * c / h))) ∧
    Real.sqrt (2 * (a * 365) * c / h) / 2 * h =
      a * 365 / Real.sqrt (2 * (a * 365) * c / h) * c ∧
    (rowMetrics r).total_cost =
      some (FVal.fin (Real.sqrt (2 * (a * 365) * c / h) * h)) := by
  obtain ⟨hann, heoq, htot⟩ := rowMetrics_eoq_total_fin r a c h ha hc hh hpos hrad
  have hradpos : 0 < 2 * (a * 365) * c / h := by
    apply div_pos _ hpos
    nlinarith
  have hepos : 0 < Real.sqrt (2 * (a * 365) * c / h) :=
    Real.sqrt_pos.mpr hradpos
  have hsq : Real.sqrt (2 * (a * 365) * c / h) ^ 2 = 2 * (a * 365) * c / h :=
    Real.sq_sqrt hradpos.le
  have hsqh : Real.sqrt (2 * (a * 365) * c / h) ^ 2 * h = 2 * (a * 365) * c := by
    rw [hsq]
    field_simp
  have key : Real.sqrt (2 * (a * 365) * c / h) / 2 * h =
      a * 365 / Real.sqrt (2 * (a * 365) * c / h) * c := by
    rw [div_mul_eq_mul_div, div_mul_eq_mul_div,
      div_eq_div_iff (by norm_num) hepos.ne']
    nlinarith [hsqh]
  refine ⟨heoq, key, ?_⟩
  rw [htot, ← key]
  have : Real.sqrt (2 * (a * 365) * c / h) / 2 * h +
      Real.sqrt (2 * (a * 365) * c / h) / 2 * h =
      Real.sqrt (2 * (a * 365) * c / h) * h := by
    ring
  rw [this]

/-- Witness for C10 at the spec's concrete record. -/
theorem C10_total_cost_split_witness :
    (rowMetrics recA101).eoq =
      some (FVal.fin (Real.sqrt (2 * ((50:ℝ) * 365) * 200 / 2))) ∧
    Real.sqrt (2 * ((50:ℝ) * 365) * 200 / 2) / 2 * 2 =
      (50:ℝ) * 365 / Real.sqrt (2 * ((50:ℝ) * 365) * 200 / 2) * 200 ∧
    (rowMetrics recA101).total_cost =
      some (FVal.fin (Real.sqrt (2 * ((50:ℝ) * 365) * 200 / 2) * 2)) :=
  C10_total_cost_split recA101 50 200 2 rfl rfl rfl (by norm_num) (by norm_num)

/-- Inserting into a sorted key list is a permutation of consing. -/
theorem insortKey_perm (c : String) (l : List String) :
    (insortKey c l).Perm (c :: l) := by
  induction l with
  | nil => exact List.Perm.refl _
  | cons k ks ih =>
    simp only [insortKey]
    by_cases h : c ≤ k
    · rw [if_pos h]
    · rw [if_neg h]
      exact (ih.cons k).trans (List.Perm.swap c k ks)

/-- Insertion sort permutes its input. -/
theorem sortKeys_perm (l : List String) : (sortKeys l).Perm l := by
  induction l with
  | nil => exact List.Perm.refl _
  | cons k ks ih =>
    exact (insortKey_perm k (sortKeys ks)).trans (ih.cons k)

/-- The grouping keys are distinct. -/
theorem classKeys_nodup (df : List Record) : (classKeys df).Nodup :=
  ((sortKeys_perm _).nodup_iff).mpr (List.nodup_dedup _)

/-- A class value is a grouping key exactly when some record carries it. -/
theorem mem_classKeys (df : List Record) (c : String) :
    c ∈ classKeys df ↔ c ∈ df.map Record.cls := by
  rw [classKeys, (sortKeys_perm _).mem_iff, List.mem_dedup]

/-- The key column of the summary is exactly the grouping key list. -/
theorem map_fst_class_summary (df : List Record) :
    (class_summary df).map Prod.fst = classKeys df := by
  unfold class_summary
  induction classKeys df with
  | nil => rfl
  | cons k t ih => simpa using ih

/-- The sum of a one-element finite column is that element. -/
theorem sumF_singleton_fin (x : ℝ) : sumF [FVal.fin x] = FVal.fin x := by
  show FVal.fin (0 + x) = FVal.fin x
  rw [zero_add]

/-- C6: `class_summary` has exactly one row per distinct `Class` value (its
key column is the distinct classes, without duplication), the row of a
class carries the sums of `ROP`, `EOQ` and `Total_Cost` over precisely the
records of that class, a single-record class contributes that record's own
values, and the empty collection yields the empty summary rather than an
error. -/
theorem C6_class_summary_groups (df : List Record) :
    (df = [] → class_summary df = []) ∧
    ((class_summary df).map Prod.fst).Nodup ∧
    (∀ c : String,
      c ∈ (class_summary df).map Prod.fst ↔ c ∈ df.map Record.cls) ∧
    (∀ row ∈ class_summary df,
      row = (row.1,
        sumF ((df.filter (fun t => t.cls = row.1)).map
          fun t => t.rop.getD FVal.nan),
        sumF ((df.filter (fun t => t.cls = row.1)).map
          fun t => t.eoq.getD FVal.nan),
        sumF ((df.filter (fun t => t.cls = row.1)).map
          fun t => t.total_cost.getD FVal.nan))) ∧
    (∀ (c : String) (r : Record) (x y z : ℝ),
      df.filter (fun t => t.cls = c) = [r] →
      r.rop = some (FVal.fin x) → r.eoq = some (FVal.fin y) →
      r.total_cost = some (FVal.fin z) →
      (c, FVal.fin x, FVal.fin y, FVal.fin z) ∈ class_summary df) := by
  refine ⟨?_, ?_, ?_, ?_, ?_⟩
  · intro h
    subst h
    rfl
  · rw [map_fst_class_summary]
    exact classKeys_nodup df
  · intro c
    rw [map_fst_class_summary]
    exact mem_classKeys df c
  · intro row hrow
    obtain ⟨c, hcmem, rfl⟩ := List.mem_map.mp hrow
    rfl
  · intro c r x y z hfil hx hy hz
    have hrfil : r ∈ df.filter (fun t => t.cls = c) := by
      rw [hfil]
      exact List.mem_singleton_self r
    have h1 := List.mem_filter.mp hrfil
    have hcls : r.cls = c := by simpa using h1.2
    have hckeys : c ∈ classKeys df :=
      (mem_classKeys df c).mpr (List.mem_map.mpr ⟨r, h1.1, hcls⟩)
    refine List.mem_map.mpr ⟨c, hckeys, ?_⟩
    show (c,
      sumF ((df.filter (fun t => t.cls = c)).map fun t => t.rop.getD FVal.nan),
      sumF ((df.filter (fun t => t.cls = c)).map fun t => t.eoq.getD FVal.nan),
      sumF ((df.filter (fun t => t.cls = c)).map
        fun t => t.total_cost.getD FVal.nan)) = _
    rw [hfil]
    simp [hx, hy, hz, sumF_singleton_fin]

/-- Witness for C6: empty input gives the empty summary, and on a two-class
collection the class-A row of the summary is class A's own values. -/
theorem C6_class_summary_groups_witness :
    class_summary ([] : List Record) = [] ∧
    ("A", FVal.fin 600, FVal.fin 1910, FVal.fin 3820) ∈
      class_summary [aggA, aggB] := by
  constructor
  · exact (C6_class_summary_groups []).1 rfl
  · exact (C6_class_summary_groups [aggA, aggB]).2.2.2.2 "A" aggA 600 1910 3820
      rfl rfl rfl rfl

/-- Witness for C1 on a one-row collection: the length is kept and the
`EOQ` cell is the square-root formula applied to that row's own fields. -/
theorem C1_calculate_metrics_rowwise_witness :
    (calculate_metrics [recA101]).length = 1 ∧
    (rowMetrics recA101).eoq =
      some (FVal.sqrt (FVal.fin 2 * (FVal.fin 50 * FVal.fin 365) *
        FVal.fin 200 / FVal.fin 2)) := by
  have H := C1_calculate_metrics_rowwise [recA101]
  exact ⟨H.1, (H.2.2 recA101).2.2.2.1 (FVal.fin 50 * FVal.fin 365)
    (H.2.2 recA101).2.2.1⟩
